import Mathlib

/-!
Shallow embedding of `src/models/hardwareInterface/src/InputDevice.cpp`
(namespace `idf`).

The C++ fragment defines a base class `InputDevice` with three fields
(`delay : int`, `mOpen : bool`, `enabled : bool`), a default constructor
initialising them to `0`, `false`, `true`, a const accessor `isOpen`
returning `mOpen`, and a method `update` that, when `mOpen` is false,
builds the message `__FILE__ ":" __LINE__ " Device is not open."` and
throws `IOException` with it; when `mOpen` is true it does nothing.

Methods are embedded as state-passing functions: `update` returns the
resulting field state together with `some e` when it throws the
exception `e`, and `none` when it returns normally.  A C++ `throw`
aborts the method body without touching the fields, so the state
component on the error path is the incoming state.
-/

namespace idf

/-- The exception type thrown by `update`; it carries the message string
passed to the `IOException` constructor. -/
structure IOException where
  message : String
  deriving DecidableEq, Repr

/-- The state of an `InputDevice` object: the three data members of the
C++ class. -/
structure InputDevice where
  delay : Int
  mOpen : Bool
  enabled : Bool
  deriving DecidableEq, Repr

/-- The default constructor `InputDevice::InputDevice()`: member
initialiser list `delay(0), mOpen(false), enabled(true)`. -/
def initInputDevice : InputDevice :=
  { delay := 0, mOpen := false, enabled := true }

/-- `bool InputDevice::isOpen() const { return mOpen; }`.  The method is
`const`, so it reads `mOpen` and touches nothing. -/
def InputDevice.isOpen (d : InputDevice) : Bool :=
  d.mOpen

/-- The translation-unit path that the preprocessor substitutes for
`__FILE__` inside `InputDevice::update`. -/
def srcFileName : String :=
  "src/models/hardwareInterface/src/InputDevice.cpp"

/-- The line number that `__LINE__` expands to at the throw site: the
`oss << __FILE__ << ":" << __LINE__` statement sits on line 20 of the
file. -/
def throwLine : Nat := 20

/-- The string streamed into `oss` and handed to the `IOException`
constructor: `__FILE__ << ":" << __LINE__ << " Device is not open."`. -/
def notOpenMessage : String :=
  srcFileName ++ ":" ++ toString throwLine ++ " Device is not open."

/-- `void InputDevice::update()`: if `!mOpen`, build `notOpenMessage`
and throw `IOException(oss.str())`; otherwise fall through and return.
The first component is the field state after the call (a `throw` leaves
the members untouched), the second is the thrown exception, if any. -/
def InputDevice.update (d : InputDevice) : InputDevice × Option IOException :=
  if !d.mOpen then
    (d, some { message := notOpenMessage })
  else
    (d, none)

/-- `s` contains `pat` as a (contiguous) substring. -/
def containsSubstr (s pat : String) : Prop :=
  ∃ pre post, s = pre ++ pat ++ post

/-- The states of an `InputDevice` reachable through the operations
visible in this fragment alone: the fresh object of the default
constructor, then any number of `update` calls (`isOpen` is `const` and
leaves the state as it is). -/
inductive Reachable : InputDevice → Prop where
  | init : Reachable initInputDevice
  | step {d : InputDevice} : Reachable d → Reachable (d.update).1

end idf

namespace idf

/-- C1: `update()` throws `DeviceNotOpenError` (the `IOException`) if
and only if `isOpen()` is false: the call returns normally exactly when
the open flag is true. -/
theorem update_throws_iff_not_open (d : InputDevice) :
    (d.update).2 = none ↔ d.isOpen = true := by
  cases d with
  | mk delay mOpen enabled =>
    cases mOpen <;> simp [InputDevice.update, InputDevice.isOpen]

/-- C2: whenever `update()` throws on a non-open device, the exception
carries the message `__FILE__ ":" __LINE__ " Device is not open."`,
which names the source file and line and contains the substring
"not open". -/
theorem update_error_message (d : InputDevice) (h : d.isOpen = false) :
    ∃ e : IOException, (d.update).2 = some e ∧
      e.message = srcFileName ++ ":" ++ toString throwLine ++ " Device is not open." ∧
      containsSubstr e.message "not open" := by
  refine ⟨{ message := notOpenMessage }, ?_, rfl, ?_⟩
  · cases d with
    | mk delay mOpen enabled =>
      cases mOpen with
      | false => simp [InputDevice.update]
      | true => simp [InputDevice.isOpen] at h
  · exact ⟨srcFileName ++ ":" ++ toString throwLine ++ " Device is ", ".", by decide⟩

/-- Witness for C2 at the freshly constructed device, whose open flag is
false. -/
theorem update_error_message_witness :
    ∃ e : IOException, (initInputDevice.update).2 = some e ∧
      e.message = srcFileName ++ ":" ++ toString throwLine ++ " Device is not open." ∧
      containsSubstr e.message "not open" :=
  update_error_message initInputDevice rfl

/-- C3: a freshly constructed `InputDevice` reports `isOpen() == false`:
the member initialiser list sets `mOpen` to false. -/
theorem init_not_open : initInputDevice.isOpen = false := rfl

/-- C4: a freshly constructed `InputDevice` has `enabled == true` and
`delay == 0`, from the member initialiser list. -/
theorem init_enabled_and_delay :
    initInputDevice.enabled = true ∧ initInputDevice.delay = 0 :=
  ⟨rfl, rfl⟩

/-- C5: on a device whose open flag is false, the failing `update()`
call leaves every field (`delay`, `mOpen`, `enabled`) unchanged. -/
theorem update_not_open_frame (d : InputDevice) (h : d.isOpen = false) :
    ((d.update).1).delay = d.delay ∧
    ((d.update).1).mOpen = d.mOpen ∧
    ((d.update).1).enabled = d.enabled := by
  cases d with
  | mk delay mOpen enabled =>
    cases mOpen <;> simp [InputDevice.update]

/-- Witness for C5 at the freshly constructed device. -/
theorem update_not_open_frame_witness :
    ((initInputDevice.update).1).delay = initInputDevice.delay ∧
    ((initInputDevice.update).1).mOpen = initInputDevice.mOpen ∧
    ((initInputDevice.update).1).enabled = initInputDevice.enabled :=
  update_not_open_frame initInputDevice rfl

/-- C6: on a device whose open flag is true, the base-class `update()`
returns normally (throws nothing) and leaves every field unchanged. -/
theorem update_open_frame (d : InputDevice) (h : d.isOpen = true) :
    (d.update).2 = none ∧
    ((d.update).1).delay = d.delay ∧
    ((d.update).1).mOpen = d.mOpen ∧
    ((d.update).1).enabled = d.enabled := by
  cases d with
  | mk delay mOpen enabled =>
    cases mOpen with
    | false => simp [InputDevice.isOpen] at h
    | true => simp [InputDevice.update]

/-- Witness for C6 at a device whose open flag has been forced true, as
a test subclass would. -/
theorem update_open_frame_witness :
    (InputDevice.update { delay := 0, mOpen := true, enabled := true }).2 = none ∧
    ((InputDevice.update { delay := 0, mOpen := true, enabled := true }).1).delay =
      InputDevice.delay { delay := 0, mOpen := true, enabled := true } ∧
    ((InputDevice.update { delay := 0, mOpen := true, enabled := true }).1).mOpen =
      InputDevice.mOpen { delay := 0, mOpen := true, enabled := true } ∧
    ((InputDevice.update { delay := 0, mOpen := true, enabled := true }).1).enabled =
      InputDevice.enabled { delay := 0, mOpen := true, enabled := true } :=
  update_open_frame { delay := 0, mOpen := true, enabled := true } rfl

/-- C7: `isOpen()` returns the stored open flag; being a `const` method
embedded as a pure function of the state, it mutates nothing and never
fails. -/
theorem isOpen_reads_flag (d : InputDevice) : d.isOpen = d.mOpen := rfl

/-- C8: no operation visible in the fragment ever sets the open flag to
true, so in every state reachable through the fragment's interface the
flag is false and `update()` throws. -/
theorem reachable_never_open (d : InputDevice) (h : Reachable d) :
    d.mOpen = false ∧ (d.update).2 ≠ none := by
  induction h with
  | init => exact ⟨rfl, by simp [initInputDevice, InputDevice.update]⟩
  | step hr ih =>
    rename_i d'
    obtain ⟨hflag, _⟩ := ih
    cases d' with
    | mk delay mOpen enabled =>
      cases mOpen with
      | false => exact ⟨rfl, by simp [InputDevice.update]⟩
      | true => exact absurd hflag (by simp)

/-- Witness for C8 at the freshly constructed device, which is reachable
by the constructor alone. -/
theorem reachable_never_open_witness :
    initInputDevice.mOpen = false ∧ (initInputDevice.update).2 ≠ none :=
  reachable_never_open initInputDevice Reachable.init

/-- C9: the outcome of `update()` and the value of `isOpen()` depend
only on the open flag: two states agreeing on `mOpen` but arbitrary in
`delay` and `enabled` yield the same success/failure and the same
`isOpen()` value. -/
theorem update_depends_only_on_flag (d₁ d₂ : InputDevice)
    (h : d₁.mOpen = d₂.mOpen) :
    ((d₁.update).2 = none ↔ (d₂.update).2 = none) ∧ d₁.isOpen = d₂.isOpen := by
  cases d₁ with
  | mk delay₁ mOpen₁ enabled₁ =>
    cases d₂ with
    | mk delay₂ mOpen₂ enabled₂ =>
      simp only at h
      subst h
      cases mOpen₁ <;> simp [InputDevice.update, InputDevice.isOpen]

/-- Witness for C9 at two closed devices that differ in `delay` and
`enabled`. -/
theorem update_depends_only_on_flag_witness :
    ((InputDevice.update { delay := 0, mOpen := false, enabled := true }).2 = none ↔
      (InputDevice.update { delay := 7, mOpen := false, enabled := false }).2 = none) ∧
    InputDevice.isOpen { delay := 0, mOpen := false, enabled := true } =
      InputDevice.isOpen { delay := 7, mOpen := false, enabled := false } :=
  update_depends_only_on_flag
    { delay := 0, mOpen := false, enabled := true }
    { delay := 7, mOpen := false, enabled := false } rfl

/-- C10: `update()` is idempotent: a second call from the state left by
the first produces the same state and the same outcome (same
success/failure, same exception) as the first call. -/
theorem update_idempotent (d : InputDevice) :
    ((d.update).1).update = d.update := by
  cases d with
  | mk delay mOpen enabled =>
    cases mOpen <;> simp [InputDevice.update]

end idf
